import Mathlib

/-!
Shallow embedding of the log-line parser of `src/neurons/parsing.py` and of the
reward computation of `src/neurons/validator.py`.

Strings are modelled as `List Char`.  Python's `re` character classes are
modelled on their ASCII fragment (`\d` as ASCII decimal digits, `\s` as ASCII
whitespace, `.` as any character other than a newline), which covers every
input the claims and the repository's tests exercise.
-/

namespace DaturaLog

/-- Length of the longest prefix of `l` whose characters all satisfy `p`. -/
def countWhile (p : Char → Bool) : List Char → Nat
  | [] => 0
  | c :: rest => if p c then countWhile p rest + 1 else 0

/-- ASCII whitespace, the characters matched by Python's `\s` (so `\S` is its
complement). -/
def isSpaceChar (c : Char) : Bool :=
  c = ' ' || c = '\t' || c = '\n' || c = '\r' || c = '\x0b' || c = '\x0c'

/-- Characters excluded by the look-around of the `status_code` pattern
`(?<![\d.])\d{3}(?![\d.])`: a decimal digit or a dot. -/
def isDigitDot (c : Char) : Bool := c.isDigit || c = '.'

/-!
Each of the five regex patterns of `parse` becomes a matcher
`List Char → Nat → Option (Nat × α)`: given the working text `w` and a start
position `p`, it returns the length of the match at `p` and the captured data,
or `none` when the pattern does not match at `p`.  `scanText` then models
`re.search`: the leftmost position with a match wins.
-/

/-- One `\d{1,3}\.` group of the ip pattern, matched at the head of `l`.
A digit run of length 1 to 3 followed by a literal dot is the unique way the
greedy `\d{1,3}\.` can succeed here (shorter digit choices would place a digit
where the dot is required); returns the consumed length including the dot. -/
def octetDot (l : List Char) : Option Nat :=
  let r := countWhile Char.isDigit l
  if 1 ≤ r ∧ r ≤ 3 then
    match l.get? r with
    | some c => if c = '.' then some (r + 1) else none
    | none => none
  else none

/-- The pattern `\d{1,3}\.\d{1,3}\.\d{1,3}\.\d{1,3}` matched at position `p` of
`w`: three digit-dot groups then a final greedy `\d{1,3}`.  Captures the
matched text (the `group()` of the Python match object). -/
def ipMatchAt (w : List Char) (p : Nat) : Option (Nat × List Char) :=
  let t := w.drop p
  match octetDot t with
  | some k1 =>
    match octetDot (t.drop k1) with
    | some k2 =>
      match octetDot ((t.drop k1).drop k2) with
      | some k3 =>
        let rest := ((t.drop k1).drop k2).drop k3
        let r := countWhile Char.isDigit rest
        if 1 ≤ r then
          let len := k1 + k2 + k3 + min r 3
          some (len, t.take len)
        else none
      | none => none
    | none => none
  | none => none

/-- Index of the first `]` in `l`, provided no newline comes before it (the
lazy `.*?` of the timestamp pattern cannot cross a newline). -/
def findClose : List Char → Option Nat
  | [] => none
  | c :: rest =>
    if c = ']' then some 0
    else if c = '\n' then none
    else (findClose rest).map (fun k => k + 1)

/-- The pattern `\[(?P<timestamp>.*?)\]` matched at position `p` of `w`: an
opening bracket, then the shortest newline-free run up to a closing bracket.
Captures the bracket-interior text (the named group `timestamp`). -/
def tsMatchAt (w : List Char) (p : Nat) : Option (Nat × List Char) :=
  match w.drop p with
  | '[' :: rest =>
    match findClose rest with
    | some k => some (k + 2, rest.take k)
    | none => none
  | _ => none

/-- The tail `(?P<url>/\S+) (?P<protocol>HTTP/\d\.\d)"` of the request pattern
matched at the head of `l`.  The greedy `\S+` run is forced (a shorter choice
would place a non-space where the literal space is required); returns the
consumed length together with the `url` and `protocol` captures. -/
def urlProtoQuote (l : List Char) : Option (Nat × List Char × List Char) :=
  match l with
  | '/' :: m =>
    let k := countWhile (fun c => !(isSpaceChar c)) m
    if 1 ≤ k then
      match m.drop k with
      | ' ' :: 'H' :: 'T' :: 'T' :: 'P' :: '/' :: d1 :: '.' :: d2 :: '"' :: _ =>
        if d1.isDigit && d2.isDigit then
          some (k + 11, '/' :: m.take k, ['H', 'T', 'T', 'P', '/', d1, '.', d2])
        else none
      | _ => none
    else none
  | _ => none

/-- One candidate split of the greedy `(?P<method>.*)` at index `i` of the text
after the opening quote: the method is `rest.take i`, a literal space must
stand at `i`, and the url/protocol tail must match right after it. -/
def trySplit (rest : List Char) (i : Nat) : Option (Nat × List Char × List Char × List Char) :=
  match rest.get? i with
  | some c =>
    if c = ' ' then
      match urlProtoQuote (rest.drop (i + 1)) with
      | some (k, url, proto) => some (i + 1 + k, rest.take i, url, proto)
      | none => none
    else none
  | none => none

/-- Backtracking of the greedy `(?P<method>.*)`: candidate split indices are
tried from the largest down to 0, as Python's engine does. -/
def reqSplit (rest : List Char) : Nat → Option (Nat × List Char × List Char × List Char)
  | 0 => trySplit rest 0
  | i + 1 =>
    match trySplit rest (i + 1) with
    | some r => some r
    | none => reqSplit rest i

/-- The pattern `"(?P<method>.*) (?P<url>/\S+) (?P<protocol>HTTP/\d\.\d)"`
matched at position `p` of `w`.  Captures the three named groups. -/
def reqMatchAt (w : List Char) (p : Nat) : Option (Nat × List Char × List Char × List Char) :=
  match w.drop p with
  | '"' :: rest =>
    match reqSplit rest (countWhile (fun c => !(c = '\n')) rest) with
    | some (k, m, url, proto) => some (k + 1, m, url, proto)
    | none => none
  | _ => none

/-- Negative lookbehind `(?<![\d.])` of the status-code pattern at position
`p`: either `p` is the start of the text or the previous character is neither a
digit nor a dot. -/
def lookbehindOK (w : List Char) : Nat → Bool
  | 0 => true
  | q + 1 =>
    match w.get? q with
    | some d => !(isDigitDot d)
    | none => true

/-- Negative lookahead `(?![\d.])` of the status-code pattern after the three
digits starting at `p`. -/
def lookaheadOK (w : List Char) (p : Nat) : Bool :=
  match w.get? (p + 3) with
  | some d => !(isDigitDot d)
  | none => true

/-- The pattern `(?<![\d.])\d{3}(?![\d.])` matched at position `p` of `w`.
Captures the three-digit text. -/
def statusMatchAt (w : List Char) (p : Nat) : Option (Nat × List Char) :=
  match w.get? p, w.get? (p + 1), w.get? (p + 2) with
  | some a, some b, some c =>
    if a.isDigit && b.isDigit && c.isDigit && lookbehindOK w p && lookaheadOK w p then
      some (3, [a, b, c])
    else none
  | _, _, _ => none

/-- The pattern `\d+` matched at position `p` of `w`: a greedy digit run of
length at least one.  Captures the digit text. -/
def bytesMatchAt (w : List Char) (p : Nat) : Option (Nat × List Char) :=
  let t := w.drop p
  let r := countWhile Char.isDigit t
  if 1 ≤ r then some (r, t.take r) else none

/-- Scan positions `start, start+1, ...` (at most `fuel` of them) and return
the first position where the matcher succeeds, together with its result. -/
def scanFrom (m : Nat → Option α) : Nat → Nat → Option (Nat × α)
  | 0, _ => none
  | fuel + 1, p =>
    match m p with
    | some a => some (p, a)
    | none => scanFrom m fuel (p + 1)

/-- `re.search`: the leftmost match of the pattern in `w`.  None of the five
patterns can match the empty string, so positions `0 .. w.length - 1`
suffice. -/
def scanText (m : List Char → Nat → Option α) (w : List Char) : Option (Nat × α) :=
  scanFrom (m w) w.length 0

/-- `re.sub(pattern, '', w, count := 1)` once the leftmost match is known:
splice the matched span out of the working text. -/
def removeSpan (w : List Char) (p len : Nat) : List Char :=
  w.take p ++ w.drop (p + len)

/-!
The five extraction stages of `parse`, in the fixed dictionary order of
`patterns`.  `wk` is the working text (`remaining_logline`) seen by stage
`k+1`; each stage searches the current working text and, on success, removes
exactly the matched span before the next stage runs.
-/

/-- Stage 1: search the ip pattern in the input. -/
def ipStage (s : List Char) : Option (Nat × Nat × List Char) := scanText ipMatchAt s

/-- Working text after the ip stage. -/
def w1 (s : List Char) : List Char :=
  match ipStage s with
  | some (p, len, _) => removeSpan s p len
  | none => s

/-- Stage 2: search the timestamp pattern in the working text. -/
def tsStage (s : List Char) : Option (Nat × Nat × List Char) := scanText tsMatchAt (w1 s)

/-- Working text after the timestamp stage. -/
def w2 (s : List Char) : List Char :=
  match tsStage s with
  | some (p, len, _) => removeSpan (w1 s) p len
  | none => w1 s

/-- Stage 3: search the request-triple pattern in the working text. -/
def reqStage (s : List Char) : Option (Nat × Nat × List Char × List Char × List Char) :=
  scanText reqMatchAt (w2 s)

/-- Working text after the request stage. -/
def w3 (s : List Char) : List Char :=
  match reqStage s with
  | some (p, len, _) => removeSpan (w2 s) p len
  | none => w2 s

/-- Stage 4: search the status-code pattern in the working text. -/
def statusStage (s : List Char) : Option (Nat × Nat × List Char) := scanText statusMatchAt (w3 s)

/-- Working text after the status-code stage. -/
def w4 (s : List Char) : List Char :=
  match statusStage s with
  | some (p, len, _) => removeSpan (w3 s) p len
  | none => w3 s

/-- Stage 5: search the bytes-sent pattern in the working text. -/
def bytesStage (s : List Char) : Option (Nat × Nat × List Char) := scanText bytesMatchAt (w4 s)

/-- The dictionary `extracted_info` at the end of the extraction loop of
`parse`: for each pattern key, the captured data of its leftmost match in the
working text of its stage, or `none` when the pattern was not found. -/
structure ExtractedInfo where
  ip : Option (List Char)
  timestamp : Option (List Char)
  request_info : Option (List Char × List Char × List Char)
  status_code : Option (List Char)
  bytes_sent : Option (List Char)
deriving DecidableEq, Repr

/-- The extraction loop of `parse` (lines 44-49 of `parsing.py`). -/
def extract (s : List Char) : ExtractedInfo where
  ip := (ipStage s).map (fun r => r.2.2)
  timestamp := (tsStage s).map (fun r => r.2.2)
  request_info := (reqStage s).map (fun r => r.2.2)
  status_code := (statusStage s).map (fun r => r.2.2)
  bytes_sent := (bytesStage s).map (fun r => r.2.2)

/-!
Semantic validation helpers used by `transform_extracted_info`.
-/

/-- Split a list of characters on the dots it contains. -/
def splitOnDot : List Char → List (List Char)
  | [] => [[]]
  | c :: rest =>
    let r := splitOnDot rest
    if c = '.' then [] :: r
    else
      match r with
      | g :: gs => (c :: g) :: gs
      | [] => [[c]]

/-- Numeric value of a digit string, as Python's `int` computes it. -/
def natOfDigits (l : List Char) : Nat :=
  l.foldl (fun n c => n * 10 + (c.toNat - '0'.toNat)) 0

/-- One dotted group accepted by `ipaddress.ip_address`: a nonempty digit run
with value at most 255 and no leading zero (Python 3.9.5+ rejects leading
zeros in IPv4 octets). -/
def validOctet (g : List Char) : Bool :=
  decide (1 ≤ g.length) && g.all Char.isDigit &&
    (match g with
     | '0' :: _ :: _ => false
     | _ => true) &&
    decide (natOfDigits g ≤ 255)

/-- Models `ipaddress.ip_address` on the texts the ip regex can match: such a
text is a dotted run of digit groups, which is a valid address exactly when it
is a valid IPv4 dotted quad (a dotted-digit text is never a valid IPv6
address). -/
def validIPAddress (t : List Char) : Bool :=
  let gs := splitOnDot t
  (gs.length == 4) && gs.all validOctet

/-- A parsed date-time value with an optional UTC offset in minutes, the shape
of the `datetime.datetime` values produced by `dateutil.parser.parse` on log
timestamps. -/
structure DateTime where
  year : Nat
  month : Nat
  day : Nat
  hour : Nat
  minute : Nat
  second : Nat
  tzOffsetMinutes : Option Int
deriving DecidableEq, Repr

/-- Month number of a three-letter English month abbreviation. -/
def monthNum : List Char → Option Nat
  | ['J', 'a', 'n'] => some 1
  | ['F', 'e', 'b'] => some 2
  | ['M', 'a', 'r'] => some 3
  | ['A', 'p', 'r'] => some 4
  | ['M', 'a', 'y'] => some 5
  | ['J', 'u', 'n'] => some 6
  | ['J', 'u', 'l'] => some 7
  | ['A', 'u', 'g'] => some 8
  | ['S', 'e', 'p'] => some 9
  | ['O', 'c', 't'] => some 10
  | ['N', 'o', 'v'] => some 11
  | ['D', 'e', 'c'] => some 12
  | _ => none

/-- Split the leading digit run off a list of characters. -/
def splitDigits (l : List Char) : List Char × List Char :=
  let r := countWhile Char.isDigit l
  (l.take r, l.drop r)

/-- Expect a literal character at the head of the list. -/
def expectChar (c : Char) : List Char → Option (List Char)
  | x :: rest => if x = c then some rest else none
  | [] => none

/-- Expect `n` digits at the head of the list and return their value. -/
def takeNDigits (n : Nat) (l : List Char) : Option (Nat × List Char) :=
  let ds := l.take n
  if ds.length = n ∧ ds.all Char.isDigit then some (natOfDigits ds, l.drop n) else none

/-- Expect the 1-2 digit day field at the head of the list. -/
def takeDay (l : List Char) : Option (Nat × List Char) :=
  let (ds, r) := splitDigits l
  if 1 ≤ ds.length ∧ ds.length ≤ 2 then some (natOfDigits ds, r) else none

/-- The date part `dd/Mon/yyyy` at the head of the list: day, month and year
plus the rest of the input. -/
def parseDatePart (l : List Char) : Option (Nat × Nat × Nat × List Char) :=
  match takeDay l with
  | none => none
  | some (day, r1) =>
    match expectChar '/' r1 with
    | none => none
    | some r2 =>
      match monthNum (r2.take 3) with
      | none => none
      | some mon =>
        match expectChar '/' (r2.drop 3) with
        | none => none
        | some r3 =>
          match takeNDigits 4 r3 with
          | none => none
          | some (year, r4) => some (day, mon, year, r4)

/-- The time part `HH:MM:SS` at the head of the list: hour, minute and second
plus the rest of the input. -/
def parseTimePart (l : List Char) : Option (Nat × Nat × Nat × List Char) :=
  match takeNDigits 2 l with
  | none => none
  | some (hour, r1) =>
    match expectChar ':' r1 with
    | none => none
    | some r2 =>
      match takeNDigits 2 r2 with
      | none => none
      | some (minute, r3) =>
        match expectChar ':' r3 with
        | none => none
        | some r4 =>
          match takeNDigits 2 r4 with
          | none => none
          | some (second, r5) => some (hour, minute, second, r5)

/-- The UTC-offset part `±HHMM` at the head of the list: the offset in minutes
plus the rest of the input. -/
def parseOffsetPart (l : List Char) : Option (Int × List Char) :=
  let signed : Option (Int × List Char) :=
    match l with
    | '+' :: rest => some (1, rest)
    | '-' :: rest => some (-1, rest)
    | _ => none
  match signed with
  | none => none
  | some (sgn, r1) =>
    match takeNDigits 2 r1 with
    | none => none
    | some (offH, r2) =>
      match takeNDigits 2 r2 with
      | none => none
      | some (offM, r3) =>
        if offH ≤ 23 ∧ offM ≤ 59 then some (sgn * (offH * 60 + offM), r3) else none

/-- Models `dateutil.parser.parse` restricted to the log timestamp format
`dd/Mon/yyyy HH:MM:SS ±HHMM` (the format the repository's loglines and tests
use, e.g. `09/Mar/2024 13:55:36 +0000`).  Any other string is treated as a
parse failure, matching dateutil raising `ParserError` on the strings
considered here (in particular the empty string). -/
def dateutilParse (l : List Char) : Option DateTime :=
  match parseDatePart l with
  | none => none
  | some (day, mon, year, r1) =>
    match expectChar ' ' r1 with
    | none => none
    | some r2 =>
      match parseTimePart r2 with
      | none => none
      | some (hour, minute, second, r3) =>
        match expectChar ' ' r3 with
        | none => none
        | some r4 =>
          match parseOffsetPart r4 with
          | none => none
          | some (off, r5) =>
            if r5 = [] ∧ 1 ≤ day ∧ day ≤ 31 ∧ hour ≤ 23 ∧ minute ≤ 59 ∧ second ≤ 59 then
              some ⟨year, mon, day, hour, minute, second, some off⟩
            else none

/-- A value of one field of the output record: the sentinel `INVALID`, a
string, a parsed date-time, or an integer. -/
inductive FieldVal where
  | INVALID : FieldVal
  | str : List Char → FieldVal
  | time : DateTime → FieldVal
  | int : Nat → FieldVal
deriving DecidableEq, Repr

/-- The `ParsedWebserverLogLine` TypedDict of `parsing.py`: the seven output
fields, each set by `transform_extracted_info`. -/
structure ParsedWebserverLogLine where
  ip : FieldVal
  timestamp : FieldVal
  method : FieldVal
  url : FieldVal
  protocol : FieldVal
  status_code : FieldVal
  bytes_sent : FieldVal
deriving DecidableEq, Repr

/-- The `METHODS` enumeration of `parsing.py`. -/
def METHODS : List (List Char) :=
  ["GET".toList, "POST".toList, "PUT".toList, "DELETE".toList]

/-- The per-field assignments of `transform_extracted_info` of `parsing.py`
(lines 56-95), given the timestamp field value: each remaining field is the
captured text of its match when present (subject to its semantic validation),
and `INVALID` otherwise.  The ip branch catches both `ValueError` and
`AttributeError`, so an invalid dotted quad degrades to `INVALID`; an absent
request triple invalidates method, url and protocol together, while a present
triple whose method is outside `METHODS` invalidates only the method. -/
def buildRecord (e : ExtractedInfo) (tsF : FieldVal) : ParsedWebserverLogLine where
  ip :=
    match e.ip with
    | some t => if validIPAddress t then .str t else .INVALID
    | none => .INVALID
  timestamp := tsF
  method :=
    match e.request_info with
    | some (m, _, _) => if m ∈ METHODS then .str m else .INVALID
    | none => .INVALID
  url :=
    match e.request_info with
    | some (_, u, _) => .str u
    | none => .INVALID
  protocol :=
    match e.request_info with
    | some (_, _, pr) => .str pr
    | none => .INVALID
  status_code :=
    match e.status_code with
    | some t => .str t
    | none => .INVALID
  bytes_sent :=
    match e.bytes_sent with
    | some t => .int (natOfDigits t)
    | none => .INVALID

/-- `transform_extracted_info` of `parsing.py` (lines 56-95).  The result is
`Except Unit _` because the timestamp branch catches only `AttributeError`
(absent match): when a bracketed span was captured but its interior does not
parse as a date-time, `dateutil.parser.parse` raises `ParserError` (a
`ValueError`), which propagates out of the function uncaught — modelled as
`Except.error ()`.  The non-timestamp field assignments are independent of
the timestamp branch and are collected in `buildRecord`. -/
def transform_extracted_info (e : ExtractedInfo) : Except Unit ParsedWebserverLogLine :=
  match e.timestamp with
  | some interior =>
    match dateutilParse interior with
    | some d => .ok (buildRecord e (.time d))
    | none => .error ()
  | none => .ok (buildRecord e .INVALID)

/-- `parse` of `parsing.py` (lines 24-53): run the five extraction stages over
the shrinking working text, then transform the captured matches into the
output record.  `Except.error ()` is the uncaught date-parse exception. -/
def parse (s : List Char) : Except Unit ParsedWebserverLogLine :=
  transform_extracted_info (extract s)

deriving instance DecidableEq for Except

/-!
Permutation enumeration used for the order-invariance property: a structural
(kernel-reducible) enumeration of all permutations of a list, complete with
respect to `List.Perm`.
-/

/-- All insertions of `a` into one position of `l`. -/
def insertEverywhere (a : α) : List α → List (List α)
  | [] => [[a]]
  | b :: l => (a :: b :: l) :: (insertEverywhere a l).map (fun m => b :: m)

/-- All permutations of `l`, by repeated insertion. -/
def perms : List α → List (List α)
  | [] => [[]]
  | a :: l => (perms l).flatMap (insertEverywhere a)

/-- The ip token of the repository's order-invariance test
(`test_parse_different_order`). -/
def tokIP : List Char := "192.168.1.1".toList

/-- The bracketed-timestamp token of the order-invariance test. -/
def tokTS : List Char := "[09/Mar/2024 13:55:36 +0000]".toList

/-- The quoted request-triple token of the order-invariance test. -/
def tokREQ : List Char := "\"GET /index.html HTTP/1.1\"".toList

/-- The status-code token of the order-invariance test. -/
def tokSC : List Char := "200".toList

/-- The byte-count token of the order-invariance test. -/
def tokBS : List Char := "5432".toList

/-- The five field tokens of the repository's order-invariance test. -/
def c4TestTokens : List (List Char) := [tokIP, tokTS, tokREQ, tokSC, tokBS]

/-- Join tokens with single spaces, as the test builds its loglines. -/
def joinSpace : List (List Char) → List Char
  | [] => []
  | [t] => t
  | t :: rest => t ++ ' ' :: joinSpace rest

/-- The record all permutations of `c4TestTokens` parse to. -/
def c4Expected : ParsedWebserverLogLine :=
  ⟨.str ("192.168.1.1".toList), .time ⟨2024, 3, 9, 13, 55, 36, some 0⟩,
   .str ("GET".toList), .str ("/index.html".toList), .str ("HTTP/1.1".toList),
   .str ("200".toList), .int 5432⟩

/-!
The reward computation of `src/neurons/validator.py`.  A miner's response is
an arbitrary dictionary; its values are modelled by `PyVal`, with `pyNone`
standing both for an explicit `None` value and for an absent key (for either,
`response.get(key)` yields `None`, which is falsy, and the guarded
`response[key]` lookup is never reached).
-/

/-- A value of a miner response dictionary. -/
inductive PyVal where
  | pyNone : PyVal
  | str : List Char → PyVal
  | int : Int → PyVal
  | time : DateTime → PyVal
deriving DecidableEq

/-- The seven keys of `ParsedWebserverLogLine.__annotations__`. -/
inductive LogKey where
  | ip : LogKey
  | timestamp : LogKey
  | method : LogKey
  | url : LogKey
  | protocol : LogKey
  | status_code : LogKey
  | bytes_sent : LogKey
deriving DecidableEq

/-- The key list `total_valid_keys` of `reward`. -/
def logKeys : List LogKey :=
  [.ip, .timestamp, .method, .url, .protocol, .status_code, .bytes_sent]

/-- Python truthiness of a response value, the `if response.get(valid_key):`
guard: `None` (and an absent key) is falsy, as are the empty string and the
integer 0; `datetime` values are always truthy. -/
def truthy : PyVal → Bool
  | .pyNone => false
  | .str s => !s.isEmpty
  | .int n => !(n == 0)
  | .time _ => true

/-- The literal list `[INVALID, '']` of `reward`. -/
def sentinelVals : List PyVal := [.str ("INVALID".toList), .str ("".toList)]

/-- `reward` of `validator.py` (lines 121-137): count the keys whose value is
truthy and not in `[INVALID, '']`, and divide by the number of keys. -/
def reward (response : LogKey → PyVal) : ℚ :=
  let valid_keys : Nat := logKeys.foldl
    (fun acc k =>
      if truthy (response k) then
        if response k ∈ sentinelVals then acc else acc + 1
      else acc) 0
  (valid_keys : ℚ) / (logKeys.length : ℚ)

/-- The quality score as the spec words it: a field counts as filled exactly
when it is present, not equal to `INVALID` and not an empty string. -/
def specQualityScore (response : LogKey → PyVal) : ℚ :=
  ((logKeys.countP fun k =>
      decide (response k ≠ .pyNone ∧ response k ∉ sentinelVals)) : ℚ) / (logKeys.length : ℚ)

/-- The quality score with the truthiness condition the code actually applies:
a field counts as filled exactly when its value is truthy (present, non-None,
non-zero, non-empty) and not in `[INVALID, '']`. -/
def truthyQualityScore (response : LogKey → PyVal) : ℚ :=
  ((logKeys.countP fun k =>
      decide (truthy (response k) = true ∧ ¬response k ∈ sentinelVals)) : ℚ)
    / (logKeys.length : ℚ)

/-- A response whose `bytes_sent` is the integer 0: present, not `INVALID`,
not the empty string — yet falsy, so `reward` does not count it. -/
def zeroBytesResponse : LogKey → PyVal
  | .bytes_sent => .int 0
  | _ => .str ("INVALID".toList)

/-!
Provenance of the matched spans.  `removeSpan w p len` splices the span
`[p, p + len)` out of the working text; a position `q` of the spliced text
corresponds to the position `shiftPos p len q` of the text before the splice.
Composing these shifts maps each stage's working-text positions back to
positions of the original input, so each stage's matched span becomes a set of
original-input positions.  The claim that a removed span is never captured by
a later stage is then the pairwise disjointness of these sets — which holds
independently of the semantic validation in `transform_extracted_info`, since
the stages and removals are defined before any validation runs.
-/

/-- Position change under the splice of `[p, p + len)`. -/
def shiftPos (p len q : Nat) : Nat := if q < p then q else q + len

/-- Coordinate change of the ip stage: positions of `w1 s` as positions of the
input (the identity when the stage found no match). -/
def sigma1 (s : List Char) : Nat → Nat :=
  match ipStage s with
  | some (p, len, _) => shiftPos p len
  | none => id

/-- Coordinate change of the timestamp stage. -/
def sigma2 (s : List Char) : Nat → Nat :=
  match tsStage s with
  | some (p, len, _) => shiftPos p len
  | none => id

/-- Coordinate change of the request stage. -/
def sigma3 (s : List Char) : Nat → Nat :=
  match reqStage s with
  | some (p, len, _) => shiftPos p len
  | none => id

/-- Coordinate change of the status-code stage. -/
def sigma4 (s : List Char) : Nat → Nat :=
  match statusStage s with
  | some (p, len, _) => shiftPos p len
  | none => id

/-- Positions of `w1 s` as positions of the input. -/
def g1 (s : List Char) : Nat → Nat := sigma1 s

/-- Positions of `w2 s` as positions of the input. -/
def g2 (s : List Char) : Nat → Nat := g1 s ∘ sigma2 s

/-- Positions of `w3 s` as positions of the input. -/
def g3 (s : List Char) : Nat → Nat := g2 s ∘ sigma3 s

/-- Positions of `w4 s` as positions of the input. -/
def g4 (s : List Char) : Nat → Nat := g3 s ∘ sigma4 s

/-- The span the ip stage matched (and removed), as original positions. -/
def span1 (s : List Char) : Set Nat :=
  match ipStage s with
  | some (p, len, _) => Set.Ico p (p + len)
  | none => ∅

/-- The span the timestamp stage matched, as original positions. -/
def span2 (s : List Char) : Set Nat :=
  match tsStage s with
  | some (p, len, _) => Set.image (g1 s) (Set.Ico p (p + len))
  | none => ∅

/-- The span the request stage matched, as original positions. -/
def span3 (s : List Char) : Set Nat :=
  match reqStage s with
  | some (p, len, _) => Set.image (g2 s) (Set.Ico p (p + len))
  | none => ∅

/-- The span the status-code stage matched, as original positions. -/
def span4 (s : List Char) : Set Nat :=
  match statusStage s with
  | some (p, len, _) => Set.image (g3 s) (Set.Ico p (p + len))
  | none => ∅

/-- The span the bytes-sent stage matched, as original positions. -/
def span5 (s : List Char) : Set Nat :=
  match bytesStage s with
  | some (p, len, _) => Set.image (g4 s) (Set.Ico p (p + len))
  | none => ∅

theorem mem_insertEverywhere (a : α) (l₁ l₂ : List α) :
    (l₁ ++ a :: l₂) ∈ insertEverywhere a (l₁ ++ l₂) := by
  induction l₁ with
  | nil => cases l₂ <;> simp [insertEverywhere]
  | cons b l₁ ih =>
    simp only [List.cons_append, insertEverywhere, List.mem_cons]
    exact Or.inr (List.mem_map.mpr ⟨l₁ ++ a :: l₂, ih, rfl⟩)

theorem perm_mem_perms : ∀ {t l : List α}, l.Perm t → l ∈ perms t := by
  intro t
  induction t with
  | nil =>
    intro l h
    simp [List.perm_nil.mp h, perms]
  | cons a t ih =>
    intro l h
    have ha : a ∈ l := h.mem_iff.mpr (List.mem_cons_self a t)
    obtain ⟨l₁, l₂, rfl⟩ := List.append_of_mem ha
    have h₂ : (l₁ ++ l₂).Perm t := (List.perm_middle.symm.trans h).cons_inv
    exact List.mem_flatMap.mpr ⟨l₁ ++ l₂, ih h₂, mem_insertEverywhere a l₁ l₂⟩

/-- The evaluation of `perms c4TestTokens`: the 120 permutations of the five
test tokens, in enumeration order. -/
theorem perms_c4TestTokens_eq :
    perms c4TestTokens =
    [[tokIP, tokTS, tokREQ, tokSC, tokBS],
     [tokTS, tokIP, tokREQ, tokSC, tokBS],
     [tokTS, tokREQ, tokIP, tokSC, tokBS],
     [tokTS, tokREQ, tokSC, tokIP, tokBS],
     [tokTS, tokREQ, tokSC, tokBS, tokIP],
     [tokIP, tokREQ, tokTS, tokSC, tokBS],
     [tokREQ, tokIP, tokTS, tokSC, tokBS],
     [tokREQ, tokTS, tokIP, tokSC, tokBS],
     [tokREQ, tokTS, tokSC, tokIP, tokBS],
     [tokREQ, tokTS, tokSC, tokBS, tokIP],
     [tokIP, tokREQ, tokSC, tokTS, tokBS],
     [tokREQ, tokIP, tokSC, tokTS, tokBS],
     [tokREQ, tokSC, tokIP, tokTS, tokBS],
     [tokREQ, tokSC, tokTS, tokIP, tokBS],
     [tokREQ, tokSC, tokTS, tokBS, tokIP],
     [tokIP, tokREQ, tokSC, tokBS, tokTS],
     [tokREQ, tokIP, tokSC, tokBS, tokTS],
     [tokREQ, tokSC, tokIP, tokBS, tokTS],
     [tokREQ, tokSC, tokBS, tokIP, tokTS],
     [tokREQ, tokSC, tokBS, tokTS, tokIP],
     [tokIP, tokTS, tokSC, tokREQ, tokBS],
     [tokTS, tokIP, tokSC, tokREQ, tokBS],
     [tokTS, tokSC, tokIP, tokREQ, tokBS],
     [tokTS, tokSC, tokREQ, tokIP, tokBS],
     [tokTS, tokSC, tokREQ, tokBS, tokIP],
     [tokIP, tokSC, tokTS, tokREQ, tokBS],
     [tokSC, tokIP, tokTS, tokREQ, tokBS],
     [tokSC, tokTS, tokIP, tokREQ, tokBS],
     [tokSC, tokTS, tokREQ, tokIP, tokBS],
     [tokSC, tokTS, tokREQ, tokBS, tokIP],
     [tokIP, tokSC, tokREQ, tokTS, tokBS],
     [tokSC, tokIP, tokREQ, tokTS, tokBS],
     [tokSC, tokREQ, tokIP, tokTS, tokBS],
     [tokSC, tokREQ, tokTS, tokIP, tokBS],
     [tokSC, tokREQ, tokTS, tokBS, tokIP],
     [tokIP, tokSC, tokREQ, tokBS, tokTS],
     [tokSC, tokIP, tokREQ, tokBS, tokTS],
     [tokSC, tokREQ, tokIP, tokBS, tokTS],
     [tokSC, tokREQ, tokBS, tokIP, tokTS],
     [tokSC, tokREQ, tokBS, tokTS, tokIP],
     [tokIP, tokTS, tokSC, tokBS, tokREQ],
     [tokTS, tokIP, tokSC, tokBS, tokREQ],
     [tokTS, tokSC, tokIP, tokBS, tokREQ],
     [tokTS, tokSC, tokBS, tokIP, tokREQ],
     [tokTS, tokSC, tokBS, tokREQ, tokIP],
     [tokIP, tokSC, tokTS, tokBS, tokREQ],
     [tokSC, tokIP, tokTS, tokBS, tokREQ],
     [tokSC, tokTS, tokIP, tokBS, tokREQ],
     [tokSC, tokTS, tokBS, tokIP, tokREQ],
     [tokSC, tokTS, tokBS, tokREQ, tokIP],
     [tokIP, tokSC, tokBS, tokTS, tokREQ],
     [tokSC, tokIP, tokBS, tokTS, tokREQ],
     [tokSC, tokBS, tokIP, tokTS, tokREQ],
     [tokSC, tokBS, tokTS, tokIP, tokREQ],
     [tokSC, tokBS, tokTS, tokREQ, tokIP],
     [tokIP, tokSC, tokBS, tokREQ, tokTS],
     [tokSC, tokIP, tokBS, tokREQ, tokTS],
     [tokSC, tokBS, tokIP, tokREQ, tokTS],
     [tokSC, tokBS, tokREQ, tokIP, tokTS],
     [tokSC, tokBS, tokREQ, tokTS, tokIP],
     [tokIP, tokTS, tokREQ, tokBS, tokSC],
     [tokTS, tokIP, tokREQ, tokBS, tokSC],
     [tokTS, tokREQ, tokIP, tokBS, tokSC],
     [tokTS, tokREQ, tokBS, tokIP, tokSC],
     [tokTS, tokREQ, tokBS, tokSC, tokIP],
     [tokIP, tokREQ, tokTS, tokBS, tokSC],
     [tokREQ, tokIP, tokTS, tokBS, tokSC],
     [tokREQ, tokTS, tokIP, tokBS, tokSC],
     [tokREQ, tokTS, tokBS, tokIP, tokSC],
     [tokREQ, tokTS, tokBS, tokSC, tokIP],
     [tokIP, tokREQ, tokBS, tokTS, tokSC],
     [tokREQ, tokIP, tokBS, tokTS, tokSC],
     [tokREQ, tokBS, tokIP, tokTS, tokSC],
     [tokREQ, tokBS, tokTS, tokIP, tokSC],
     [tokREQ, tokBS, tokTS, tokSC, tokIP],
     [tokIP, tokREQ, tokBS, tokSC, tokTS],
     [tokREQ, tokIP, tokBS, tokSC, tokTS],
     [tokREQ, tokBS, tokIP, tokSC, tokTS],
     [tokREQ, tokBS, tokSC, tokIP, tokTS],
     [tokREQ, tokBS, tokSC, tokTS, tokIP],
     [tokIP, tokTS, tokBS, tokREQ, tokSC],
     [tokTS, tokIP, tokBS, tokREQ, tokSC],
     [tokTS, tokBS, tokIP, tokREQ, tokSC],
     [tokTS, tokBS, tokREQ, tokIP, tokSC],
     [tokTS, tokBS, tokREQ, tokSC, tokIP],
     [tokIP, tokBS, tokTS, tokREQ, tokSC],
     [tokBS, tokIP, tokTS, tokREQ, tokSC],
     [tokBS, tokTS, tokIP, tokREQ, tokSC],
     [tokBS, tokTS, tokREQ, tokIP, tokSC],
     [tokBS, tokTS, tokREQ, tokSC, tokIP],
     [tokIP, tokBS, tokREQ, tokTS, tokSC],
     [tokBS, tokIP, tokREQ, tokTS, tokSC],
     [tokBS, tokREQ, tokIP, tokTS, tokSC],
     [tokBS, tokREQ, tokTS, tokIP, tokSC],
     [tokBS, tokREQ, tokTS, tokSC, tokIP],
     [tokIP, tokBS, tokREQ, tokSC, tokTS],
     [tokBS, tokIP, tokREQ, tokSC, tokTS],
     [tokBS, tokREQ, tokIP, tokSC, tokTS],
     [tokBS, tokREQ, tokSC, tokIP, tokTS],
     [tokBS, tokREQ, tokSC, tokTS, tokIP],
     [tokIP, tokTS, tokBS, tokSC, tokREQ],
     [tokTS, tokIP, tokBS, tokSC, tokREQ],
     [tokTS, tokBS, tokIP, tokSC, tokREQ],
     [tokTS, tokBS, tokSC, tokIP, tokREQ],
     [tokTS, tokBS, tokSC, tokREQ, tokIP],
     [tokIP, tokBS, tokTS, tokSC, tokREQ],
     [tokBS, tokIP, tokTS, tokSC, tokREQ],
     [tokBS, tokTS, tokIP, tokSC, tokREQ],
     [tokBS, tokTS, tokSC, tokIP, tokREQ],
     [tokBS, tokTS, tokSC, tokREQ, tokIP],
     [tokIP, tokBS, tokSC, tokTS, tokREQ],
     [tokBS, tokIP, tokSC, tokTS, tokREQ],
     [tokBS, tokSC, tokIP, tokTS, tokREQ],
     [tokBS, tokSC, tokTS, tokIP, tokREQ],
     [tokBS, tokSC, tokTS, tokREQ, tokIP],
     [tokIP, tokBS, tokSC, tokREQ, tokTS],
     [tokBS, tokIP, tokSC, tokREQ, tokTS],
     [tokBS, tokSC, tokIP, tokREQ, tokTS],
     [tokBS, tokSC, tokREQ, tokIP, tokTS],
     [tokBS, tokSC, tokREQ, tokTS, tokIP]] := by rfl

theorem c4_perm_case_0 :
    parse (joinSpace [tokIP, tokTS, tokREQ, tokSC, tokBS]) = Except.ok c4Expected := by rfl

theorem c4_perm_case_1 :
    parse (joinSpace [tokTS, tokIP, tokREQ, tokSC, tokBS]) = Except.ok c4Expected := by rfl

theorem c4_perm_case_2 :
    parse (joinSpace [tokTS, tokREQ, tokIP, tokSC, tokBS]) = Except.ok c4Expected := by rfl

theorem c4_perm_case_3 :
    parse (joinSpace [tokTS, tokREQ, tokSC, tokIP, tokBS]) = Except.ok c4Expected := by rfl

theorem c4_perm_case_4 :
    parse (joinSpace [tokTS, tokREQ, tokSC, tokBS, tokIP]) = Except.ok c4Expected := by rfl

theorem c4_perm_case_5 :
    parse (joinSpace [tokIP, tokREQ, tokTS, tokSC, tokBS]) = Except.ok c4Expected := by rfl

theorem c4_perm_case_6 :
    parse (joinSpace [tokREQ, tokIP, tokTS, tokSC, tokBS]) = Except.ok c4Expected := by rfl

theorem c4_perm_case_7 :
    parse (joinSpace [tokREQ, tokTS, tokIP, tokSC, tokBS]) = Except.ok c4Expected := by rfl

theorem c4_perm_case_8 :
    parse (joinSpace [tokREQ, tokTS, tokSC, tokIP, tokBS]) = Except.ok c4Expected := by rfl

theorem c4_perm_case_9 :
    parse (joinSpace [tokREQ, tokTS, tokSC, tokBS, tokIP]) = Except.ok c4Expected := by rfl

theorem c4_perm_case_10 :
    parse (joinSpace [tokIP, tokREQ, tokSC, tokTS, tokBS]) = Except.ok c4Expected := by rfl

theorem c4_perm_case_11 :
    parse (joinSpace [tokREQ, tokIP, tokSC, tokTS, tokBS]) = Except.ok c4Expected := by rfl

theorem c4_perm_case_12 :
    parse (joinSpace [tokREQ, tokSC, tokIP, tokTS, tokBS]) = Except.ok c4Expected := by rfl

theorem c4_perm_case_13 :
    parse (joinSpace [tokREQ, tokSC, tokTS, tokIP, tokBS]) = Except.ok c4Expected := by rfl

theorem c4_perm_case_14 :
    parse (joinSpace [tokREQ, tokSC, tokTS, tokBS, tokIP]) = Except.ok c4Expected := by rfl

theorem c4_perm_case_15 :
    parse (joinSpace [tokIP, tokREQ, tokSC, tokBS, tokTS]) = Except.ok c4Expected := by rfl

theorem c4_perm_case_16 :
    parse (joinSpace [tokREQ, tokIP, tokSC, tokBS, tokTS]) = Except.ok c4Expected := by rfl

theorem c4_perm_case_17 :
    parse (joinSpace [tokREQ, tokSC, tokIP, tokBS, tokTS]) = Except.ok c4Expected := by rfl

theorem c4_perm_case_18 :
    parse (joinSpace [tokREQ, tokSC, tokBS, tokIP, tokTS]) = Except.ok c4Expected := by rfl

theorem c4_perm_case_19 :
    parse (joinSpace [tokREQ, tokSC, tokBS, tokTS, tokIP]) = Except.ok c4Expected := by rfl

theorem c4_perm_case_20 :
    parse (joinSpace [tokIP, tokTS, tokSC, tokREQ, tokBS]) = Except.ok c4Expected := by rfl

theorem c4_perm_case_21 :
    parse (joinSpace [tokTS, tokIP, tokSC, tokREQ, tokBS]) = Except.ok c4Expected := by rfl

theorem c4_perm_case_22 :
    parse (joinSpace [tokTS, tokSC, tokIP, tokREQ, tokBS]) = Except.ok c4Expected := by rfl

theorem c4_perm_case_23 :
    parse (joinSpace [tokTS, tokSC, tokREQ, tokIP, tokBS]) = Except.ok c4Expected := by rfl

theorem c4_perm_case_24 :
    parse (joinSpace [tokTS, tokSC, tokREQ, tokBS, tokIP]) = Except.ok c4Expected := by rfl

theorem c4_perm_case_25 :
    parse (joinSpace [tokIP, tokSC, tokTS, tokREQ, tokBS]) = Except.ok c4Expected := by rfl

theorem c4_perm_case_26 :
    parse (joinSpace [tokSC, tokIP, tokTS, tokREQ, tokBS]) = Except.ok c4Expected := by rfl

theorem c4_perm_case_27 :
    parse (joinSpace [tokSC, tokTS, tokIP, tokREQ, tokBS]) = Except.ok c4Expected := by rfl

theorem c4_perm_case_28 :
    parse (joinSpace [tokSC, tokTS, tokREQ, tokIP, tokBS]) = Except.ok c4Expected := by rfl

theorem c4_perm_case_29 :
    parse (joinSpace [tokSC, tokTS, tokREQ, tokBS, tokIP]) = Except.ok c4Expected := by rfl

theorem c4_perm_case_30 :
    parse (joinSpace [tokIP, tokSC, tokREQ, tokTS, tokBS]) = Except.ok c4Expected := by rfl

theorem c4_perm_case_31 :
    parse (joinSpace [tokSC, tokIP, tokREQ, tokTS, tokBS]) = Except.ok c4Expected := by rfl

theorem c4_perm_case_32 :
    parse (joinSpace [tokSC, tokREQ, tokIP, tokTS, tokBS]) = Except.ok c4Expected := by rfl

theorem c4_perm_case_33 :
    parse (joinSpace [tokSC, tokREQ, tokTS, tokIP, tokBS]) = Except.ok c4Expected := by rfl

theorem c4_perm_case_34 :
    parse (joinSpace [tokSC, tokREQ, tokTS, tokBS, tokIP]) = Except.ok c4Expected := by rfl

theorem c4_perm_case_35 :
    parse (joinSpace [tokIP, tokSC, tokREQ, tokBS, tokTS]) = Except.ok c4Expected := by rfl

theorem c4_perm_case_36 :
    parse (joinSpace [tokSC, tokIP, tokREQ, tokBS, tokTS]) = Except.ok c4Expected := by rfl

theorem c4_perm_case_37 :
    parse (joinSpace [tokSC, tokREQ, tokIP, tokBS, tokTS]) = Except.ok c4Expected := by rfl

theorem c4_perm_case_38 :
    parse (joinSpace [tokSC, tokREQ, tokBS, tokIP, tokTS]) = Except.ok c4Expected := by rfl

theorem c4_perm_case_39 :
    parse (joinSpace [tokSC, tokREQ, tokBS, tokTS, tokIP]) = Except.ok c4Expected := by rfl

theorem c4_perm_case_40 :
    parse (joinSpace [tokIP, tokTS, tokSC, tokBS, tokREQ]) = Except.ok c4Expected := by rfl

theorem c4_perm_case_41 :
    parse (joinSpace [tokTS, tokIP, tokSC, tokBS, tokREQ]) = Except.ok c4Expected := by rfl

theorem c4_perm_case_42 :
    parse (joinSpace [tokTS, tokSC, tokIP, tokBS, tokREQ]) = Except.ok c4Expected := by rfl

theorem c4_perm_case_43 :
    parse (joinSpace [tokTS, tokSC, tokBS, tokIP, tokREQ]) = Except.ok c4Expected := by rfl

theorem c4_perm_case_44 :
    parse (joinSpace [tokTS, tokSC, tokBS, tokREQ, tokIP]) = Except.ok c4Expected := by rfl

theorem c4_perm_case_45 :
    parse (joinSpace [tokIP, tokSC, tokTS, tokBS, tokREQ]) = Except.ok c4Expected := by rfl

theorem c4_perm_case_46 :
    parse (joinSpace [tokSC, tokIP, tokTS, tokBS, tokREQ]) = Except.ok c4Expected := by rfl

theorem c4_perm_case_47 :
    parse (joinSpace [tokSC, tokTS, tokIP, tokBS, tokREQ]) = Except.ok c4Expected := by rfl

theorem c4_perm_case_48 :
    parse (joinSpace [tokSC, tokTS, tokBS, tokIP, tokREQ]) = Except.ok c4Expected := by rfl

theorem c4_perm_case_49 :
    parse (joinSpace [tokSC, tokTS, tokBS, tokREQ, tokIP]) = Except.ok c4Expected := by rfl

theorem c4_perm_case_50 :
    parse (joinSpace [tokIP, tokSC, tokBS, tokTS, tokREQ]) = Except.ok c4Expected := by rfl

theorem c4_perm_case_51 :
    parse (joinSpace [tokSC, tokIP, tokBS, tokTS, tokREQ]) = Except.ok c4Expected := by rfl

theorem c4_perm_case_52 :
    parse (joinSpace [tokSC, tokBS, tokIP, tokTS, tokREQ]) = Except.ok c4Expected := by rfl

theorem c4_perm_case_53 :
    parse (joinSpace [tokSC, tokBS, tokTS, tokIP, tokREQ]) = Except.ok c4Expected := by rfl

theorem c4_perm_case_54 :
    parse (joinSpace [tokSC, tokBS, tokTS, tokREQ, tokIP]) = Except.ok c4Expected := by rfl

theorem c4_perm_case_55 :
    parse (joinSpace [tokIP, tokSC, tokBS, tokREQ, tokTS]) = Except.ok c4Expected := by rfl

theorem c4_perm_case_56 :
    parse (joinSpace [tokSC, tokIP, tokBS, tokREQ, tokTS]) = Except.ok c4Expected := by rfl

theorem c4_perm_case_57 :
    parse (joinSpace [tokSC, tokBS, tokIP, tokREQ, tokTS]) = Except.ok c4Expected := by rfl

theorem c4_perm_case_58 :
    parse (joinSpace [tokSC, tokBS, tokREQ, tokIP, tokTS]) = Except.ok c4Expected := by rfl

theorem c4_perm_case_59 :
    parse (joinSpace [tokSC, tokBS, tokREQ, tokTS, tokIP]) = Except.ok c4Expected := by rfl

theorem c4_perm_case_60 :
    parse (joinSpace [tokIP, tokTS, tokREQ, tokBS, tokSC]) = Except.ok c4Expected := by rfl

theorem c4_perm_case_61 :
    parse (joinSpace [tokTS, tokIP, tokREQ, tokBS, tokSC]) = Except.ok c4Expected := by rfl

theorem c4_perm_case_62 :
    parse (joinSpace [tokTS, tokREQ, tokIP, tokBS, tokSC]) = Except.ok c4Expected := by rfl

theorem c4_perm_case_63 :
    parse (joinSpace [tokTS, tokREQ, tokBS, tokIP, tokSC]) = Except.ok c4Expected := by rfl

theorem c4_perm_case_64 :
    parse (joinSpace [tokTS, tokREQ, tokBS, tokSC, tokIP]) = Except.ok c4Expected := by rfl

theorem c4_perm_case_65 :
    parse (joinSpace [tokIP, tokREQ, tokTS, tokBS, tokSC]) = Except.ok c4Expected := by rfl

theorem c4_perm_case_66 :
    parse (joinSpace [tokREQ, tokIP, tokTS, tokBS, tokSC]) = Except.ok c4Expected := by rfl

theorem c4_perm_case_67 :
    parse (joinSpace [tokREQ, tokTS, tokIP, tokBS, tokSC]) = Except.ok c4Expected := by rfl

theorem c4_perm_case_68 :
    parse (joinSpace [tokREQ, tokTS, tokBS, tokIP, tokSC]) = Except.ok c4Expected := by rfl

theorem c4_perm_case_69 :
    parse (joinSpace [tokREQ, tokTS, tokBS, tokSC, tokIP]) = Except.ok c4Expected := by rfl

theorem c4_perm_case_70 :
    parse (joinSpace [tokIP, tokREQ, tokBS, tokTS, tokSC]) = Except.ok c4Expected := by rfl

theorem c4_perm_case_71 :
    parse (joinSpace [tokREQ, tokIP, tokBS, tokTS, tokSC]) = Except.ok c4Expected := by rfl

theorem c4_perm_case_72 :
    parse (joinSpace [tokREQ, tokBS, tokIP, tokTS, tokSC]) = Except.ok c4Expected := by rfl

theorem c4_perm_case_73 :
    parse (joinSpace [tokREQ, tokBS, tokTS, tokIP, tokSC]) = Except.ok c4Expected := by rfl

theorem c4_perm_case_74 :
    parse (joinSpace [tokREQ, tokBS, tokTS, tokSC, tokIP]) = Except.ok c4Expected := by rfl

theorem c4_perm_case_75 :
    parse (joinSpace [tokIP, tokREQ, tokBS, tokSC, tokTS]) = Except.ok c4Expected := by rfl

theorem c4_perm_case_76 :
    parse (joinSpace [tokREQ, tokIP, tokBS, tokSC, tokTS]) = Except.ok c4Expected := by rfl

theorem c4_perm_case_77 :
    parse (joinSpace [tokREQ, tokBS, tokIP, tokSC, tokTS]) = Except.ok c4Expected := by rfl

theorem c4_perm_case_78 :
    parse (joinSpace [tokREQ, tokBS, tokSC, tokIP, tokTS]) = Except.ok c4Expected := by rfl

theorem c4_perm_case_79 :
    parse (joinSpace [tokREQ, tokBS, tokSC, tokTS, tokIP]) = Except.ok c4Expected := by rfl

theorem c4_perm_case_80 :
    parse (joinSpace [tokIP, tokTS, tokBS, tokREQ, tokSC]) = Except.ok c4Expected := by rfl

theorem c4_perm_case_81 :
    parse (joinSpace [tokTS, tokIP, tokBS, tokREQ, tokSC]) = Except.ok c4Expected := by rfl

theorem c4_perm_case_82 :
    parse (joinSpace [tokTS, tokBS, tokIP, tokREQ, tokSC]) = Except.ok c4Expected := by rfl

theorem c4_perm_case_83 :
    parse (joinSpace [tokTS, tokBS, tokREQ, tokIP, tokSC]) = Except.ok c4Expected := by rfl

theorem c4_perm_case_84 :
    parse (joinSpace [tokTS, tokBS, tokREQ, tokSC, tokIP]) = Except.ok c4Expected := by rfl

theorem c4_perm_case_85 :
    parse (joinSpace [tokIP, tokBS, tokTS, tokREQ, tokSC]) = Except.ok c4Expected := by rfl

theorem c4_perm_case_86 :
    parse (joinSpace [tokBS, tokIP, tokTS, tokREQ, tokSC]) = Except.ok c4Expected := by rfl

theorem c4_perm_case_87 :
    parse (joinSpace [tokBS, tokTS, tokIP, tokREQ, tokSC]) = Except.ok c4Expected := by rfl

theorem c4_perm_case_88 :
    parse (joinSpace [tokBS, tokTS, tokREQ, tokIP, tokSC]) = Except.ok c4Expected := by rfl

theorem c4_perm_case_89 :
    parse (joinSpace [tokBS, tokTS, tokREQ, tokSC, tokIP]) = Except.ok c4Expected := by rfl

theorem c4_perm_case_90 :
    parse (joinSpace [tokIP, tokBS, tokREQ, tokTS, tokSC]) = Except.ok c4Expected := by rfl

theorem c4_perm_case_91 :
    parse (joinSpace [tokBS, tokIP, tokREQ, tokTS, tokSC]) = Except.ok c4Expected := by rfl

theorem c4_perm_case_92 :
    parse (joinSpace [tokBS, tokREQ, tokIP, tokTS, tokSC]) = Except.ok c4Expected := by rfl

theorem c4_perm_case_93 :
    parse (joinSpace [tokBS, tokREQ, tokTS, tokIP, tokSC]) = Except.ok c4Expected := by rfl

theorem c4_perm_case_94 :
    parse (joinSpace [tokBS, tokREQ, tokTS, tokSC, tokIP]) = Except.ok c4Expected := by rfl

theorem c4_perm_case_95 :
    parse (joinSpace [tokIP, tokBS, tokREQ, tokSC, tokTS]) = Except.ok c4Expected := by rfl

theorem c4_perm_case_96 :
    parse (joinSpace [tokBS, tokIP, tokREQ, tokSC, tokTS]) = Except.ok c4Expected := by rfl

theorem c4_perm_case_97 :
    parse (joinSpace [tokBS, tokREQ, tokIP, tokSC, tokTS]) = Except.ok c4Expected := by rfl

theorem c4_perm_case_98 :
    parse (joinSpace [tokBS, tokREQ, tokSC, tokIP, tokTS]) = Except.ok c4Expected := by rfl

theorem c4_perm_case_99 :
    parse (joinSpace [tokBS, tokREQ, tokSC, tokTS, tokIP]) = Except.ok c4Expected := by rfl

theorem c4_perm_case_100 :
    parse (joinSpace [tokIP, tokTS, tokBS, tokSC, tokREQ]) = Except.ok c4Expected := by rfl

theorem c4_perm_case_101 :
    parse (joinSpace [tokTS, tokIP, tokBS, tokSC, tokREQ]) = Except.ok c4Expected := by rfl

theorem c4_perm_case_102 :
    parse (joinSpace [tokTS, tokBS, tokIP, tokSC, tokREQ]) = Except.ok c4Expected := by rfl

theorem c4_perm_case_103 :
    parse (joinSpace [tokTS, tokBS, tokSC, tokIP, tokREQ]) = Except.ok c4Expected := by rfl

theorem c4_perm_case_104 :
    parse (joinSpace [tokTS, tokBS, tokSC, tokREQ, tokIP]) = Except.ok c4Expected := by rfl

theorem c4_perm_case_105 :
    parse (joinSpace [tokIP, tokBS, tokTS, tokSC, tokREQ]) = Except.ok c4Expected := by rfl

theorem c4_perm_case_106 :
    parse (joinSpace [tokBS, tokIP, tokTS, tokSC, tokREQ]) = Except.ok c4Expected := by rfl

theorem c4_perm_case_107 :
    parse (joinSpace [tokBS, tokTS, tokIP, tokSC, tokREQ]) = Except.ok c4Expected := by rfl

theorem c4_perm_case_108 :
    parse (joinSpace [tokBS, tokTS, tokSC, tokIP, tokREQ]) = Except.ok c4Expected := by rfl

theorem c4_perm_case_109 :
    parse (joinSpace [tokBS, tokTS, tokSC, tokREQ, tokIP]) = Except.ok c4Expected := by rfl

theorem c4_perm_case_110 :
    parse (joinSpace [tokIP, tokBS, tokSC, tokTS, tokREQ]) = Except.ok c4Expected := by rfl

theorem c4_perm_case_111 :
    parse (joinSpace [tokBS, tokIP, tokSC, tokTS, tokREQ]) = Except.ok c4Expected := by rfl

theorem c4_perm_case_112 :
    parse (joinSpace [tokBS, tokSC, tokIP, tokTS, tokREQ]) = Except.ok c4Expected := by rfl

theorem c4_perm_case_113 :
    parse (joinSpace [tokBS, tokSC, tokTS, tokIP, tokREQ]) = Except.ok c4Expected := by rfl

theorem c4_perm_case_114 :
    parse (joinSpace [tokBS, tokSC, tokTS, tokREQ, tokIP]) = Except.ok c4Expected := by rfl

theorem c4_perm_case_115 :
    parse (joinSpace [tokIP, tokBS, tokSC, tokREQ, tokTS]) = Except.ok c4Expected := by rfl

theorem c4_perm_case_116 :
    parse (joinSpace [tokBS, tokIP, tokSC, tokREQ, tokTS]) = Except.ok c4Expected := by rfl

theorem c4_perm_case_117 :
    parse (joinSpace [tokBS, tokSC, tokIP, tokREQ, tokTS]) = Except.ok c4Expected := by rfl

theorem c4_perm_case_118 :
    parse (joinSpace [tokBS, tokSC, tokREQ, tokIP, tokTS]) = Except.ok c4Expected := by rfl

theorem c4_perm_case_119 :
    parse (joinSpace [tokBS, tokSC, tokREQ, tokTS, tokIP]) = Except.ok c4Expected := by rfl

/-- Every permutation of the test tokens parses to the expected record. -/
theorem parse_all_perms_of_test_tokens :
    ∀ l ∈ perms c4TestTokens, parse (joinSpace l) = Except.ok c4Expected := by
  intro l hl
  rw [perms_c4TestTokens_eq] at hl
  simp only [List.mem_cons, List.not_mem_nil, or_false] at hl
  rcases hl with rfl|rfl|rfl|rfl|rfl|rfl|rfl|rfl|rfl|rfl|rfl|rfl|rfl|rfl|rfl|rfl|rfl|rfl|rfl|rfl|rfl|rfl|rfl|rfl|rfl|rfl|rfl|rfl|rfl|rfl|rfl|rfl|rfl|rfl|rfl|rfl|rfl|rfl|rfl|rfl|rfl|rfl|rfl|rfl|rfl|rfl|rfl|rfl|rfl|rfl|rfl|rfl|rfl|rfl|rfl|rfl|rfl|rfl|rfl|rfl|rfl|rfl|rfl|rfl|rfl|rfl|rfl|rfl|rfl|rfl|rfl|rfl|rfl|rfl|rfl|rfl|rfl|rfl|rfl|rfl|rfl|rfl|rfl|rfl|rfl|rfl|rfl|rfl|rfl|rfl|rfl|rfl|rfl|rfl|rfl|rfl|rfl|rfl|rfl|rfl|rfl|rfl|rfl|rfl|rfl|rfl|rfl|rfl|rfl|rfl|rfl|rfl|rfl|rfl|rfl|rfl|rfl|rfl|rfl|rfl
  · exact c4_perm_case_0
  · exact c4_perm_case_1
  · exact c4_perm_case_2
  · exact c4_perm_case_3
  · exact c4_perm_case_4
  · exact c4_perm_case_5
  · exact c4_perm_case_6
  · exact c4_perm_case_7
  · exact c4_perm_case_8
  · exact c4_perm_case_9
  · exact c4_perm_case_10
  · exact c4_perm_case_11
  · exact c4_perm_case_12
  · exact c4_perm_case_13
  · exact c4_perm_case_14
  · exact c4_perm_case_15
  · exact c4_perm_case_16
  · exact c4_perm_case_17
  · exact c4_perm_case_18
  · exact c4_perm_case_19
  · exact c4_perm_case_20
  · exact c4_perm_case_21
  · exact c4_perm_case_22
  · exact c4_perm_case_23
  · exact c4_perm_case_24
  · exact c4_perm_case_25
  · exact c4_perm_case_26
  · exact c4_perm_case_27
  · exact c4_perm_case_28
  · exact c4_perm_case_29
  · exact c4_perm_case_30
  · exact c4_perm_case_31
  · exact c4_perm_case_32
  · exact c4_perm_case_33
  · exact c4_perm_case_34
  · exact c4_perm_case_35
  · exact c4_perm_case_36
  · exact c4_perm_case_37
  · exact c4_perm_case_38
  · exact c4_perm_case_39
  · exact c4_perm_case_40
  · exact c4_perm_case_41
  · exact c4_perm_case_42
  · exact c4_perm_case_43
  · exact c4_perm_case_44
  · exact c4_perm_case_45
  · exact c4_perm_case_46
  · exact c4_perm_case_47
  · exact c4_perm_case_48
  · exact c4_perm_case_49
  · exact c4_perm_case_50
  · exact c4_perm_case_51
  · exact c4_perm_case_52
  · exact c4_perm_case_53
  · exact c4_perm_case_54
  · exact c4_perm_case_55
  · exact c4_perm_case_56
  · exact c4_perm_case_57
  · exact c4_perm_case_58
  · exact c4_perm_case_59
  · exact c4_perm_case_60
  · exact c4_perm_case_61
  · exact c4_perm_case_62
  · exact c4_perm_case_63
  · exact c4_perm_case_64
  · exact c4_perm_case_65
  · exact c4_perm_case_66
  · exact c4_perm_case_67
  · exact c4_perm_case_68
  · exact c4_perm_case_69
  · exact c4_perm_case_70
  · exact c4_perm_case_71
  · exact c4_perm_case_72
  · exact c4_perm_case_73
  · exact c4_perm_case_74
  · exact c4_perm_case_75
  · exact c4_perm_case_76
  · exact c4_perm_case_77
  · exact c4_perm_case_78
  · exact c4_perm_case_79
  · exact c4_perm_case_80
  · exact c4_perm_case_81
  · exact c4_perm_case_82
  · exact c4_perm_case_83
  · exact c4_perm_case_84
  · exact c4_perm_case_85
  · exact c4_perm_case_86
  · exact c4_perm_case_87
  · exact c4_perm_case_88
  · exact c4_perm_case_89
  · exact c4_perm_case_90
  · exact c4_perm_case_91
  · exact c4_perm_case_92
  · exact c4_perm_case_93
  · exact c4_perm_case_94
  · exact c4_perm_case_95
  · exact c4_perm_case_96
  · exact c4_perm_case_97
  · exact c4_perm_case_98
  · exact c4_perm_case_99
  · exact c4_perm_case_100
  · exact c4_perm_case_101
  · exact c4_perm_case_102
  · exact c4_perm_case_103
  · exact c4_perm_case_104
  · exact c4_perm_case_105
  · exact c4_perm_case_106
  · exact c4_perm_case_107
  · exact c4_perm_case_108
  · exact c4_perm_case_109
  · exact c4_perm_case_110
  · exact c4_perm_case_111
  · exact c4_perm_case_112
  · exact c4_perm_case_113
  · exact c4_perm_case_114
  · exact c4_perm_case_115
  · exact c4_perm_case_116
  · exact c4_perm_case_117
  · exact c4_perm_case_118
  · exact c4_perm_case_119

/-!
Claim theorems.
-/

/-- C1: the claim says `parse` returns normally on every input, and in
particular stores `INVALID` when a bracketed span's interior fails to parse as
a date-time.  The code violates this: on the input `[]` the timestamp pattern
captures the empty interior, `dateutil.parser.parse` raises `ParserError` on
it, and `transform_extracted_info` catches only `AttributeError`, so the error
propagates to the caller (modelled as `Except.error ()`). -/
theorem c1_date_error_uncaught :
    (extract ("[]".toList)).timestamp = some [] ∧
      parse ("[]".toList) = Except.error () :=
  ⟨rfl, rfl⟩

/-- C2: parsing the documented example line yields exactly the documented
seven field values. -/
theorem c2_round_trip :
    parse (("192.168.1.1 - - [09/Mar/2024 13:55:36 +0000]" ++
        " \"GET /index.html HTTP/1.1\" 200 5432").toList)
      = Except.ok
          ⟨.str ("192.168.1.1".toList), .time ⟨2024, 3, 9, 13, 55, 36, some 0⟩,
           .str ("GET".toList), .str ("/index.html".toList), .str ("HTTP/1.1".toList),
           .str ("200".toList), .int 5432⟩ := by rfl

/-- C4 counterexample: five well-formed field tokens whose byte count is the
isolated 3-digit run `123`.  In the order `... 200 123` the status-code stage
captures `200` and the bytes stage `123`; in the permuted order `... 123 200`
the status-code stage captures `123` (the leftmost isolated 3-digit run) and
the bytes stage `200`, so the two permutations parse to different records. -/
theorem c4_counterexample :
    (parse (joinSpace ["192.168.1.1".toList, "[09/Mar/2024 13:55:36 +0000]".toList,
        "\"GET /index.html HTTP/1.1\"".toList, "200".toList, "123".toList])).map
        (fun r => (r.status_code, r.bytes_sent))
      = Except.ok (.str ("200".toList), .int 123) ∧
    (parse (joinSpace ["192.168.1.1".toList, "[09/Mar/2024 13:55:36 +0000]".toList,
        "\"GET /index.html HTTP/1.1\"".toList, "123".toList, "200".toList])).map
        (fun r => (r.status_code, r.bytes_sent))
      = Except.ok (.str ("123".toList), .int 200) ∧
    (FieldVal.str ("200".toList), FieldVal.int 123) ≠
      (FieldVal.str ("123".toList), FieldVal.int 200) :=
  ⟨rfl, rfl, by decide⟩

/-- C4 amended: for the fixed five well-formed field tokens of the
repository's own order-invariance test (whose byte count `5432` is not itself
an isolated 3-digit run), parsing any single-space-separated permutation of
the five tokens yields the identical record. -/
theorem c4_order_invariance_amended (l : List (List Char)) (h : l.Perm c4TestTokens) :
    parse (joinSpace l) = Except.ok c4Expected :=
  parse_all_perms_of_test_tokens l (perm_mem_perms h)

/-- Witness for C4 amended at the identity permutation. -/
theorem c4_order_invariance_amended_witness :
    parse (joinSpace c4TestTokens) = Except.ok c4Expected :=
  c4_order_invariance_amended c4TestTokens (List.Perm.refl _)

/-- C7: parsing the empty string returns a record with all seven fields equal
to `INVALID`, and does not raise. -/
theorem c7_empty_input_all_invalid :
    parse ("".toList) =
      Except.ok ⟨.INVALID, .INVALID, .INVALID, .INVALID, .INVALID, .INVALID, .INVALID⟩ := by
  rfl

/-- Whenever `transform_extracted_info` returns a record, that record is
`buildRecord` of the extracted matches (with some timestamp field value). -/
theorem transform_ok_shape (e : ExtractedInfo) (r : ParsedWebserverLogLine)
    (h : transform_extracted_info e = Except.ok r) : ∃ tsF, r = buildRecord e tsF := by
  unfold transform_extracted_info at h
  cases hts : e.timestamp with
  | none =>
    simp only [hts] at h
    injection h with h
    exact ⟨.INVALID, h.symm⟩
  | some interior =>
    simp only [hts] at h
    cases hd : dateutilParse interior with
    | none => simp [hd] at h
    | some d =>
      simp only [hd] at h
      injection h with h
      exact ⟨.time d, h.symm⟩

/-- C3: for every input whose parse returns a record, method, url and protocol
are invalidated as a unit: when the request pattern found no match in its
working text all three are `INVALID`, and when it matched but the captured
method is outside `METHODS` only the method is `INVALID` while url and
protocol keep their extracted text. -/
theorem c3_request_triple_unit (s : List Char) (r : ParsedWebserverLogLine)
    (h : parse s = Except.ok r) :
    ((extract s).request_info = none →
      r.method = .INVALID ∧ r.url = .INVALID ∧ r.protocol = .INVALID) ∧
    (∀ m u pr, (extract s).request_info = some (m, u, pr) → m ∉ METHODS →
      r.method = .INVALID ∧ r.url = .str u ∧ r.protocol = .str pr) := by
  obtain ⟨tsF, rfl⟩ := transform_ok_shape (extract s) r h
  constructor
  · intro hnone
    simp [buildRecord, hnone]
  · intro m u pr hsome hmem
    simp [buildRecord, hsome, hmem]

/-- Witness for C3 on the line `"PATCH /x HTTP/1.1"`: the method `PATCH` is
outside the enumeration, so it is invalidated while url and protocol keep
their extracted text. -/
theorem c3_request_triple_unit_witness :
    (⟨.INVALID, .INVALID, .INVALID, .str ("/x".toList), .str ("HTTP/1.1".toList),
        .INVALID, .INVALID⟩ : ParsedWebserverLogLine).method = .INVALID ∧
    (⟨.INVALID, .INVALID, .INVALID, .str ("/x".toList), .str ("HTTP/1.1".toList),
        .INVALID, .INVALID⟩ : ParsedWebserverLogLine).url = .str ("/x".toList) ∧
    (⟨.INVALID, .INVALID, .INVALID, .str ("/x".toList), .str ("HTTP/1.1".toList),
        .INVALID, .INVALID⟩ : ParsedWebserverLogLine).protocol = .str ("HTTP/1.1".toList) :=
  (c3_request_triple_unit ("\"PATCH /x HTTP/1.1\"".toList) _ rfl).2
    ("PATCH".toList) ("/x".toList) ("HTTP/1.1".toList) rfl (by decide)

/-- A nested counting fold is a `countP` of the conjunction of its guards. -/
theorem foldl_nested_if_countP {α : Type _} (P Q : α → Prop) [DecidablePred P] [DecidablePred Q]
    (l : List α) (n : Nat) :
    l.foldl (fun acc k => if P k then (if Q k then acc else acc + 1) else acc) n
      = n + l.countP (fun k => decide (P k ∧ ¬Q k)) := by
  induction l generalizing n with
  | nil => simp
  | cons a t ih =>
    rw [List.foldl_cons, List.countP_cons, ih]
    by_cases h1 : P a <;> by_cases h2 : Q a <;> (simp [h1, h2]; try omega)

/-- C6 counterexample: on a response whose `bytes_sent` is the integer 0 and
whose other fields are `INVALID`, `reward` returns 0, while counting a field
as filled exactly when present, not `INVALID` and not empty gives 1/7: the
truthiness guard of the code drops falsy values such as 0. -/
theorem c6_counterexample :
    reward zeroBytesResponse ≠ specQualityScore zeroBytesResponse := by
  have h1 : (logKeys.foldl
      (fun acc k =>
        if truthy (zeroBytesResponse k) then
          if zeroBytesResponse k ∈ sentinelVals then acc else acc + 1
        else acc) 0) = 0 := by decide
  have h2 : (logKeys.countP fun k =>
      decide (zeroBytesResponse k ≠ .pyNone ∧ zeroBytesResponse k ∉ sentinelVals)) = 1 := by
    decide
  unfold reward specQualityScore
  rw [h1, h2]
  norm_num [logKeys]

/-- C6 amended: the quality score equals filled/total where a field counts as
filled exactly when its value is truthy (so present, non-None, non-zero and
non-empty) and not equal to `INVALID`. -/
theorem c6_reward_amended (response : LogKey → PyVal) :
    reward response = truthyQualityScore response := by
  unfold reward truthyQualityScore
  rw [foldl_nested_if_countP (fun k => truthy (response k) = true)
      (fun k => response k ∈ sentinelVals)]
  norm_num

/-- C10: for every response dictionary, the reward lies in `[0, 1]`: the
filled-key count never exceeds the seven keys and is never negative. -/
theorem c10_reward_bounds (response : LogKey → PyVal) :
    0 ≤ reward response ∧ reward response ≤ 1 := by
  unfold reward
  rw [foldl_nested_if_countP (fun k => truthy (response k) = true)
      (fun k => response k ∈ sentinelVals), Nat.zero_add]
  constructor
  · positivity
  · rw [div_le_one (by norm_num [logKeys])]
    have hc := List.countP_le_length
      (fun k => decide (truthy (response k) = true ∧ ¬response k ∈ sentinelVals)) (l := logKeys)
    exact_mod_cast hc

/-!
Soundness of the scanning combinator: a returned match is a match at its
position, and no earlier position matches — `re.search` returns the leftmost
match.
-/

theorem scanFrom_eq_some {α : Type _} (m : Nat → Option α) :
    ∀ (fuel start p : Nat) (a : α), scanFrom m fuel start = some (p, a) →
      m p = some a ∧ start ≤ p ∧ ∀ q, start ≤ q → q < p → m q = none := by
  intro fuel
  induction fuel with
  | zero => intro start p a h; cases h
  | succ fuel ih =>
    intro start p a h
    unfold scanFrom at h
    cases hm : m start with
    | some b =>
      simp only [hm] at h
      injection h with h
      injection h with h1 h2
      subst h1
      subst h2
      exact ⟨hm, Nat.le_refl _, fun q hq1 hq2 => absurd (Nat.lt_of_le_of_lt hq1 hq2)
        (Nat.lt_irrefl _)⟩
    | none =>
      simp only [hm] at h
      obtain ⟨h1, h2, h3⟩ := ih (start + 1) p a h
      refine ⟨h1, by omega, fun q hq1 hq2 => ?_⟩
      rcases Nat.eq_or_lt_of_le hq1 with heq | hlt
      · rw [← heq]; exact hm
      · exact h3 q hlt hq2

theorem scanText_leftmost {α : Type _} (m : List Char → Nat → Option α) (w : List Char)
    (p : Nat) (a : α) (h : scanText m w = some (p, a)) :
    m w p = some a ∧ ∀ q, q < p → m w q = none := by
  obtain ⟨h1, _, h3⟩ := scanFrom_eq_some (m w) w.length 0 p a h
  exact ⟨h1, fun q hq => h3 q (Nat.zero_le q) hq⟩

/-- C8: at every stage, the match used for the field is the leftmost match of
that stage's pattern in that stage's working text: the pattern matches at the
returned position and at no earlier position, so any further occurrence of
the same token class to the right is never the one captured. -/
theorem c8_first_match_used (s : List Char) :
    (∀ p len caps, ipStage s = some (p, len, caps) →
      ipMatchAt s p = some (len, caps) ∧ ∀ q, q < p → ipMatchAt s q = none) ∧
    (∀ p len caps, tsStage s = some (p, len, caps) →
      tsMatchAt (w1 s) p = some (len, caps) ∧ ∀ q, q < p → tsMatchAt (w1 s) q = none) ∧
    (∀ p len m u pr, reqStage s = some (p, len, m, u, pr) →
      reqMatchAt (w2 s) p = some (len, m, u, pr) ∧ ∀ q, q < p → reqMatchAt (w2 s) q = none) ∧
    (∀ p len caps, statusStage s = some (p, len, caps) →
      statusMatchAt (w3 s) p = some (len, caps) ∧ ∀ q, q < p → statusMatchAt (w3 s) q = none) ∧
    (∀ p len caps, bytesStage s = some (p, len, caps) →
      bytesMatchAt (w4 s) p = some (len, caps) ∧ ∀ q, q < p → bytesMatchAt (w4 s) q = none) := by
  refine ⟨?_, ?_, ?_, ?_, ?_⟩
  · intro p len caps h
    exact scanText_leftmost ipMatchAt s p (len, caps) h
  · intro p len caps h
    exact scanText_leftmost tsMatchAt (w1 s) p (len, caps) h
  · intro p len m u pr h
    exact scanText_leftmost reqMatchAt (w2 s) p (len, m, u, pr) h
  · intro p len caps h
    exact scanText_leftmost statusMatchAt (w3 s) p (len, caps) h
  · intro p len caps h
    exact scanText_leftmost bytesMatchAt (w4 s) p (len, caps) h

/-- Witness for C8 on an input with two bracket pairs: the timestamp stage
uses the leftmost pair `[a]` (at position 2) and the pattern does not match at
position 0. -/
theorem c8_first_match_used_witness :
    tsMatchAt (w1 ("x [a] [b]".toList)) 2 = some (3, "a".toList) ∧
    tsMatchAt (w1 ("x [a] [b]".toList)) 0 = none := by
  obtain ⟨h1, h2⟩ :=
    (c8_first_match_used ("x [a] [b]".toList)).2.1 2 3 ("a".toList) rfl
  exact ⟨h1, h2 0 (by decide)⟩

/-- Inversion of the status-code matcher: a successful match at `p` means
three digits at `p`, `p+1`, `p+2` with both look-arounds satisfied. -/
theorem statusMatchAt_eq_some (w : List Char) (p len : Nat) (caps : List Char)
    (h : statusMatchAt w p = some (len, caps)) :
    len = 3 ∧
    ∃ a b c, caps = [a, b, c] ∧
      w.get? p = some a ∧ w.get? (p + 1) = some b ∧ w.get? (p + 2) = some c ∧
      a.isDigit = true ∧ b.isDigit = true ∧ c.isDigit = true ∧
      lookbehindOK w p = true ∧ lookaheadOK w p = true := by
  unfold statusMatchAt at h
  cases hA : w.get? p with
  | none =>
    simp only [hA] at h
    exact Option.noConfusion h
  | some a =>
    cases hB : w.get? (p + 1) with
    | none =>
      simp only [hA, hB] at h
      exact Option.noConfusion h
    | some b =>
      cases hC : w.get? (p + 2) with
      | none =>
        simp only [hA, hB, hC] at h
        exact Option.noConfusion h
      | some c =>
        simp only [hA, hB, hC] at h
        split at h
        · rename_i hcond
          injection h with h
          injection h with h1 h2
          simp only [Bool.and_eq_true] at hcond
          exact ⟨h1.symm, a, b, c, h2.symm, rfl, rfl, rfl,
            hcond.1.1.1.1, hcond.1.1.1.2, hcond.1.1.2, hcond.1.2, hcond.2⟩
        · exact Option.noConfusion h

/-- C5: whenever the status-code stage captures a text, that text is a run of
exactly three decimal digits in the stage's working text, and the characters
immediately before and after it (when they exist) are neither decimal digits
nor dots — the negative look-arounds of the pattern, which keep it from
consuming digits inside an IP octet or a longer byte count. -/
theorem c5_status_code_isolated (s : List Char) (p len : Nat) (caps : List Char)
    (h : statusStage s = some (p, len, caps)) :
    len = 3 ∧
    (∃ a b c, caps = [a, b, c] ∧
      (w3 s).get? p = some a ∧ (w3 s).get? (p + 1) = some b ∧ (w3 s).get? (p + 2) = some c ∧
      a.isDigit = true ∧ b.isDigit = true ∧ c.isDigit = true) ∧
    (∀ q ch, p = q + 1 → (w3 s).get? q = some ch → isDigitDot ch = false) ∧
    (∀ ch, (w3 s).get? (p + 3) = some ch → isDigitDot ch = false) := by
  unfold statusStage at h
  obtain ⟨h1, _⟩ := scanText_leftmost statusMatchAt (w3 s) p (len, caps) h
  obtain ⟨hlen, a, b, c, hcaps, hA, hB, hC, ha, hb, hc, hlb, hla⟩ :=
    statusMatchAt_eq_some (w3 s) p len caps h1
  refine ⟨hlen, ⟨a, b, c, hcaps, hA, hB, hC, ha, hb, hc⟩, ?_, ?_⟩
  · intro q ch hpq hq
    subst hpq
    simp only [lookbehindOK] at hlb
    rw [hq] at hlb
    simpa using hlb
  · intro ch hch
    simp only [lookaheadOK] at hla
    rw [hch] at hla
    simpa using hla

/-- Witness for C5 on `x5 200 t`: the captured status code is the isolated
run `200` at position 3, flanked by non-digit, non-dot characters. -/
theorem c5_status_code_isolated_witness :
    3 = 3 ∧
    (∃ a b c, ("200".toList) = [a, b, c] ∧
      (w3 ("x5 200 t".toList)).get? 3 = some a ∧
      (w3 ("x5 200 t".toList)).get? (3 + 1) = some b ∧
      (w3 ("x5 200 t".toList)).get? (3 + 2) = some c ∧
      a.isDigit = true ∧ b.isDigit = true ∧ c.isDigit = true) ∧
    (∀ q ch, 3 = q + 1 → (w3 ("x5 200 t".toList)).get? q = some ch →
      isDigitDot ch = false) ∧
    (∀ ch, (w3 ("x5 200 t".toList)).get? (3 + 3) = some ch → isDigitDot ch = false) :=
  c5_status_code_isolated ("x5 200 t".toList) 3 3 ("200".toList) rfl

theorem shiftPos_injective (p len : Nat) : Function.Injective (shiftPos p len) := by
  intro x y h
  unfold shiftPos at h
  split at h <;> split at h <;> omega

theorem shiftPos_not_mem (p len q : Nat) : shiftPos p len q ∉ Set.Ico p (p + len) := by
  simp only [Set.mem_Ico, shiftPos]
  split <;> omega

theorem sigma1_injective (s : List Char) : Function.Injective (sigma1 s) := by
  unfold sigma1
  cases ipStage s with
  | some r => obtain ⟨p, len, c⟩ := r; exact shiftPos_injective p len
  | none => exact fun a b h => h

theorem sigma2_injective (s : List Char) : Function.Injective (sigma2 s) := by
  unfold sigma2
  cases tsStage s with
  | some r => obtain ⟨p, len, c⟩ := r; exact shiftPos_injective p len
  | none => exact fun a b h => h

theorem sigma3_injective (s : List Char) : Function.Injective (sigma3 s) := by
  unfold sigma3
  cases reqStage s with
  | some r => obtain ⟨p, len, c⟩ := r; exact shiftPos_injective p len
  | none => exact fun a b h => h

theorem g1_injective (s : List Char) : Function.Injective (g1 s) :=
  sigma1_injective s

theorem g2_injective (s : List Char) : Function.Injective (g2 s) :=
  (g1_injective s).comp (sigma2_injective s)

theorem g3_injective (s : List Char) : Function.Injective (g3 s) :=
  (g2_injective s).comp (sigma3_injective s)

theorem sigma1_eq (s : List Char) (p len : Nat) (caps : List Char)
    (h : ipStage s = some (p, len, caps)) : sigma1 s = shiftPos p len := by
  unfold sigma1
  rw [h]

theorem sigma2_eq (s : List Char) (p len : Nat) (caps : List Char)
    (h : tsStage s = some (p, len, caps)) : sigma2 s = shiftPos p len := by
  unfold sigma2
  rw [h]

theorem sigma3_eq (s : List Char) (p len : Nat) (caps : List Char × List Char × List Char)
    (h : reqStage s = some (p, len, caps)) : sigma3 s = shiftPos p len := by
  unfold sigma3
  rw [h]

theorem sigma4_eq (s : List Char) (p len : Nat) (caps : List Char)
    (h : statusStage s = some (p, len, caps)) : sigma4 s = shiftPos p len := by
  unfold sigma4
  rw [h]

/-- A span removed at some stage is disjoint from anything reached through the
splice of that span: the shift never lands inside `[p, p + len)`. -/
theorem ico_comp_shift_disjoint (f : Nat → Nat) (p len : Nat) (U : Set Nat) :
    Disjoint (Set.Ico p (p + len)) (Set.image (shiftPos p len ∘ f) U) := by
  rw [Set.disjoint_left]
  rintro x hx ⟨u, _, rfl⟩
  exact shiftPos_not_mem p len (f u) hx

/-- Image version: pushing both sides through an injective coordinate map
preserves the disjointness of `ico_comp_shift_disjoint`. -/
theorem image_comp_shift_disjoint (g f : Nat → Nat) (p len : Nat) (U : Set Nat)
    (hg : Function.Injective g) :
    Disjoint (Set.image g (Set.Ico p (p + len)))
      (Set.image (g ∘ shiftPos p len ∘ f) U) := by
  rw [Set.disjoint_left]
  rintro x ⟨a, ha, rfl⟩ ⟨u, _, hux⟩
  have heq : shiftPos p len (f u) = a := hg hux
  rw [← heq] at ha
  exact shiftPos_not_mem p len (f u) ha

/-- C9: the spans matched (and removed) by the five stages are pairwise
disjoint as sets of original-input positions: once a stage's pattern matched a
span, that span is spliced out of the working text before any later pattern
runs, so no later stage (status_code and bytes_sent included) can capture any
character of it.  The spans are defined from the extraction stages alone, so
this holds whether or not the later semantic validation (for example of a
syntactically matched dotted quad such as 999.999.999.999) accepts the
captured text. -/
theorem c9_matched_spans_disjoint (s : List Char) :
    (Disjoint (span1 s) (span2 s) ∧ Disjoint (span1 s) (span3 s) ∧
      Disjoint (span1 s) (span4 s) ∧ Disjoint (span1 s) (span5 s)) ∧
    (Disjoint (span2 s) (span3 s) ∧ Disjoint (span2 s) (span4 s) ∧
      Disjoint (span2 s) (span5 s)) ∧
    (Disjoint (span3 s) (span4 s) ∧ Disjoint (span3 s) (span5 s)) ∧
    Disjoint (span4 s) (span5 s) := by
  refine ⟨⟨?_, ?_, ?_, ?_⟩, ⟨?_, ?_, ?_⟩, ⟨?_, ?_⟩, ?_⟩
  · -- span1 vs span2
    cases h1 : ipStage s with
    | none => simp only [span1, h1]; exact Set.empty_disjoint _
    | some r1 =>
      obtain ⟨p1, l1, c1⟩ := r1
      cases h2 : tsStage s with
      | none => simp only [span2, h2]; exact Set.disjoint_empty _
      | some r2 =>
        obtain ⟨p2, l2, c2⟩ := r2
        simp only [span1, h1, span2, h2]
        have hfac : g1 s = shiftPos p1 l1 ∘ id := by
          funext q
          simp [g1, sigma1_eq s p1 l1 c1 h1]
        rw [hfac]
        exact ico_comp_shift_disjoint id p1 l1 _
  · -- span1 vs span3
    cases h1 : ipStage s with
    | none => simp only [span1, h1]; exact Set.empty_disjoint _
    | some r1 =>
      obtain ⟨p1, l1, c1⟩ := r1
      cases h3 : reqStage s with
      | none => simp only [span3, h3]; exact Set.disjoint_empty _
      | some r3 =>
        obtain ⟨p3, l3, c3⟩ := r3
        simp only [span1, h1, span3, h3]
        have hfac : g2 s = shiftPos p1 l1 ∘ sigma2 s := by
          funext q
          simp [g2, g1, sigma1_eq s p1 l1 c1 h1]
        rw [hfac]
        exact ico_comp_shift_disjoint (sigma2 s) p1 l1 _
  · -- span1 vs span4
    cases h1 : ipStage s with
    | none => simp only [span1, h1]; exact Set.empty_disjoint _
    | some r1 =>
      obtain ⟨p1, l1, c1⟩ := r1
      cases h4 : statusStage s with
      | none => simp only [span4, h4]; exact Set.disjoint_empty _
      | some r4 =>
        obtain ⟨p4, l4, c4⟩ := r4
        simp only [span1, h1, span4, h4]
        have hfac : g3 s = shiftPos p1 l1 ∘ (sigma2 s ∘ sigma3 s) := by
          funext q
          simp [g3, g2, g1, sigma1_eq s p1 l1 c1 h1, Function.comp]
        rw [hfac]
        exact ico_comp_shift_disjoint (sigma2 s ∘ sigma3 s) p1 l1 _
  · -- span1 vs span5
    cases h1 : ipStage s with
    | none => simp only [span1, h1]; exact Set.empty_disjoint _
    | some r1 =>
      obtain ⟨p1, l1, c1⟩ := r1
      cases h5 : bytesStage s with
      | none => simp only [span5, h5]; exact Set.disjoint_empty _
      | some r5 =>
        obtain ⟨p5, l5, c5⟩ := r5
        simp only [span1, h1, span5, h5]
        have hfac : g4 s = shiftPos p1 l1 ∘ (sigma2 s ∘ sigma3 s ∘ sigma4 s) := by
          funext q
          simp [g4, g3, g2, g1, sigma1_eq s p1 l1 c1 h1, Function.comp]
        rw [hfac]
        exact ico_comp_shift_disjoint (sigma2 s ∘ sigma3 s ∘ sigma4 s) p1 l1 _
  · -- span2 vs span3
    cases h2 : tsStage s with
    | none => simp only [span2, h2]; exact Set.empty_disjoint _
    | some r2 =>
      obtain ⟨p2, l2, c2⟩ := r2
      cases h3 : reqStage s with
      | none => simp only [span3, h3]; exact Set.disjoint_empty _
      | some r3 =>
        obtain ⟨p3, l3, c3⟩ := r3
        simp only [span2, h2, span3, h3]
        have hfac : g2 s = g1 s ∘ shiftPos p2 l2 ∘ id := by
          funext q
          simp [g2, sigma2_eq s p2 l2 c2 h2]
        rw [hfac]
        exact image_comp_shift_disjoint (g1 s) id p2 l2 _ (g1_injective s)
  · -- span2 vs span4
    cases h2 : tsStage s with
    | none => simp only [span2, h2]; exact Set.empty_disjoint _
    | some r2 =>
      obtain ⟨p2, l2, c2⟩ := r2
      cases h4 : statusStage s with
      | none => simp only [span4, h4]; exact Set.disjoint_empty _
      | some r4 =>
        obtain ⟨p4, l4, c4⟩ := r4
        simp only [span2, h2, span4, h4]
        have hfac : g3 s = g1 s ∘ shiftPos p2 l2 ∘ sigma3 s := by
          funext q
          simp [g3, g2, sigma2_eq s p2 l2 c2 h2, Function.comp]
        rw [hfac]
        exact image_comp_shift_disjoint (g1 s) (sigma3 s) p2 l2 _ (g1_injective s)
  · -- span2 vs span5
    cases h2 : tsStage s with
    | none => simp only [span2, h2]; exact Set.empty_disjoint _
    | some r2 =>
      obtain ⟨p2, l2, c2⟩ := r2
      cases h5 : bytesStage s with
      | none => simp only [span5, h5]; exact Set.disjoint_empty _
      | some r5 =>
        obtain ⟨p5, l5, c5⟩ := r5
        simp only [span2, h2, span5, h5]
        have hfac : g4 s = g1 s ∘ shiftPos p2 l2 ∘ (sigma3 s ∘ sigma4 s) := by
          funext q
          simp [g4, g3, g2, sigma2_eq s p2 l2 c2 h2, Function.comp]
        rw [hfac]
        exact image_comp_shift_disjoint (g1 s) (sigma3 s ∘ sigma4 s) p2 l2 _ (g1_injective s)
  · -- span3 vs span4
    cases h3 : reqStage s with
    | none => simp only [span3, h3]; exact Set.empty_disjoint _
    | some r3 =>
      obtain ⟨p3, l3, c3⟩ := r3
      cases h4 : statusStage s with
      | none => simp only [span4, h4]; exact Set.disjoint_empty _
      | some r4 =>
        obtain ⟨p4, l4, c4⟩ := r4
        simp only [span3, h3, span4, h4]
        have hfac : g3 s = g2 s ∘ shiftPos p3 l3 ∘ id := by
          funext q
          simp [g3, sigma3_eq s p3 l3 c3 h3]
        rw [hfac]
        exact image_comp_shift_disjoint (g2 s) id p3 l3 _ (g2_injective s)
  · -- span3 vs span5
    cases h3 : reqStage s with
    | none => simp only [span3, h3]; exact Set.empty_disjoint _
    | some r3 =>
      obtain ⟨p3, l3, c3⟩ := r3
      cases h5 : bytesStage s with
      | none => simp only [span5, h5]; exact Set.disjoint_empty _
      | some r5 =>
        obtain ⟨p5, l5, c5⟩ := r5
        simp only [span3, h3, span5, h5]
        have hfac : g4 s = g2 s ∘ shiftPos p3 l3 ∘ sigma4 s := by
          funext q
          simp [g4, g3, sigma3_eq s p3 l3 c3 h3, Function.comp]
        rw [hfac]
        exact image_comp_shift_disjoint (g2 s) (sigma4 s) p3 l3 _ (g2_injective s)
  · -- span4 vs span5
    cases h4 : statusStage s with
    | none => simp only [span4, h4]; exact Set.empty_disjoint _
    | some r4 =>
      obtain ⟨p4, l4, c4⟩ := r4
      cases h5 : bytesStage s with
      | none => simp only [span5, h5]; exact Set.disjoint_empty _
      | some r5 =>
        obtain ⟨p5, l5, c5⟩ := r5
        simp only [span4, h4, span5, h5]
        have hfac : g4 s = g3 s ∘ shiftPos p4 l4 ∘ id := by
          funext q
          simp [g4, sigma4_eq s p4 l4 c4 h4]
        rw [hfac]
        exact image_comp_shift_disjoint (g3 s) id p4 l4 _ (g3_injective s)

end DaturaLog
